import Mathlib

/-!
Verification development for the feishu_bot subsystem of workflow-trend-radar:
the per-subscriber job scheduler (`scheduler/job_manager.py`), the push
orchestrator (`scheduler/pusher.py`), the command router
(`core/command_handler.py`) and the webhook conversation handlers (`main.py`).

The Python code is shallowly embedded: each Python function becomes a Lean
function over explicit state; exceptions become `Except String`; collaborator
calls (SQLite store, Feishu transport, trendradar fetch core) are supplied as
explicit behaviours.  Python strings are modelled by Lean `String`, with the
handful of Python string methods the code uses (`strip`, `split`, `lower`,
`startswith`, `int(...)`) re-implemented structurally so that every closed
computation reduces inside the kernel.  `UserConfig` rows store their keyword /
platform / push-time lists directly (the sqlite rows keep them as JSON-encoded
lists of strings; the encoding is lossless and not modelled).  Card payloads
produced by `message_builder.py` are abstracted to constructors carrying the
data the builders receive.
-/

/-! ## Python string primitives -/

/-- Structural `List.dropWhile` for characters (used to build `str.strip`). -/
def dropWhileChar (p : Char → Bool) : List Char → List Char
  | [] => []
  | c :: cs => if p c then dropWhileChar p cs else c :: cs

/-- Python `str.strip()` (whitespace from both ends). -/
def pyStrip (s : String) : String :=
  ⟨dropWhileChar Char.isWhitespace
    ((dropWhileChar Char.isWhitespace s.data.reverse).reverse)⟩

/-- Worker for `pySplitChar`. -/
def splitCharAux (sep : Char) : List Char → List Char → List String
  | [], acc => [⟨acc.reverse⟩]
  | c :: cs, acc =>
    if c = sep then ⟨acc.reverse⟩ :: splitCharAux sep cs []
    else splitCharAux sep cs (c :: acc)

/-- Python `str.split(sep)` for a one-character separator (the code only ever
splits on `','` and `':'`). -/
def pySplitChar (sep : Char) (s : String) : List String :=
  splitCharAux sep s.data []

/-- Python `s.split(maxsplit=1)`: first whitespace-free word, and the remainder
with its leading whitespace removed (the code applies it to already-stripped
text). -/
def splitMax1 (s : String) : String × String :=
  let cmd := s.data.takeWhile (fun c => ¬ c.isWhitespace)
  (⟨cmd⟩, ⟨(s.data.drop cmd.length).dropWhile Char.isWhitespace⟩)

/-- Python `str.lower()`; the command vocabulary is ASCII, for which
`Char.toLower` agrees with Python. -/
def pyLower (s : String) : String := ⟨s.data.map Char.toLower⟩

/-- Python `s.startswith(p)`. -/
def pyStartswith (s p : String) : Bool := p.data.isPrefixOf s.data

/-- Python `sep in s` for a one-character needle. -/
def pyContainsChar (s : String) (c : Char) : Bool := s.data.any (· = c)

/-- Digit-string value. -/
def digitsVal : List Char → Nat → Nat
  | [], acc => acc
  | c :: cs, acc => digitsVal cs (acc * 10 + (c.toNat - '0'.toNat))

/-- Python `int(s)`: optional sign, at least one decimal digit, surrounding
whitespace allowed; anything else raises `ValueError` (→ `none`). -/
def pyInt? (s : String) : Option Int :=
  let t := (pyStrip s).data
  let (sign, digits) :=
    match t with
    | '-' :: rest => ((-1 : Int), rest)
    | '+' :: rest => ((1 : Int), rest)
    | _ => ((1 : Int), t)
  if digits ≠ [] ∧ digits.all Char.isDigit then
    some (sign * (digitsVal digits 0 : Int))
  else none

/-- Python `sep.join(parts)`. -/
def strJoin (sep : String) : List String → String
  | [] => ""
  | [x] => x
  | x :: xs => x ++ (sep ++ strJoin sep xs)

/-- The list comprehension `[k.strip() for k in args.split(',') if k.strip()]`
used by every CSV-taking command. -/
def pySplitCSV (args : String) : List String :=
  ((pySplitChar ',' args).map pyStrip).filter (· ≠ "")

/-! ## Data model (`storage/models.py`) -/

/-- `UserConfig` row (surrogate id / timestamps omitted; the three JSON-array
columns are modelled as the lists they encode). -/
structure UserConfig where
  user_id : String
  user_name : String
  keywords : List String
  platforms : List String
  push_times : List String
  timezone : String
  report_mode : String
  enabled : Nat
deriving Repr, DecidableEq

/-- One `push_logs` row as appended by `Database.log_push`. -/
structure PushLogEntry where
  user_id : String
  news_count : Nat
  status : String
  error_msg : Option String
deriving Repr, DecidableEq

/-! ## Job scheduler (`scheduler/job_manager.py`) -/

/-- A live APScheduler job: id `push_{user_id}_{push_time}`, the owning user,
the source delivery-time string, and the UTC cron trigger hour/minute. -/
structure Job where
  id : String
  userId : String
  timeStr : String
  utcHour : Nat
  utcMinute : Nat
deriving Repr, DecidableEq

/-- `ZoneInfo(name)` restricted to fixed-offset views of the zones exercised
here, in minutes east of UTC on a DST-free date; an unknown name raises
(→ `none`), which `add_user_jobs` turns into a per-job skip. -/
def zoneOffset? (tz : String) : Option Int :=
  if tz = "Asia/Shanghai" then some 480
  else if tz = "UTC" then some 0
  else if tz = "Asia/Tokyo" then some 540
  else none

/-- The civil→UTC conversion of `add_user_jobs`: take the current reference
instant (minutes since an epoch), re-express it in the user's zone, replace
hour/minute with the configured values (seconds zeroed), convert back to UTC
and extract hour/minute. -/
def utcTrigger (nowRef offset h m : Int) : Nat × Nat :=
  let localDay := (nowRef + offset) / 1440
  let utcMin := localDay * 1440 + h * 60 + m - offset
  let tod := utcMin % 1440
  ((tod / 60).toNat, (tod % 60).toNat)

/-- `hour, minute = push_time.split(':')` followed by `int(...)` and the
validity bounds `datetime.replace` enforces; any failure raises inside the
per-time `try` (→ `none`). -/
def parsePushTime (t : String) : Option (Int × Int) :=
  match pySplitChar ':' t with
  | [a, b] =>
    match pyInt? a, pyInt? b with
    | some h, some m =>
      if 0 ≤ h ∧ h ≤ 23 ∧ 0 ≤ m ∧ m ≤ 59 then some (h, m) else none
    | _, _ => none
  | _ => none

/-- `scheduler.add_job(..., id=..., replace_existing=True)`. -/
def addJob (j : Job) (jobs : List Job) : List Job :=
  if jobs.any (fun x => x.id == j.id) then
    jobs.map (fun x => if x.id = j.id then j else x)
  else jobs ++ [j]

/-- One iteration of the `add_user_jobs` loop: parse the time string, resolve
the zone, compute the UTC trigger and register the job; any failure skips this
time (`except` → `continue`). -/
def addStep (nowRef : Int) (u : UserConfig) (js : List Job) (t : String) :
    List Job :=
  match parsePushTime t, zoneOffset? u.timezone with
  | some (h, m), some off =>
    let trig := utcTrigger nowRef off h m
    addJob ⟨"push_" ++ u.user_id ++ "_" ++ t, u.user_id, t, trig.1, trig.2⟩ js
  | _, _ => js

/-- `JobManager.add_user_jobs`: one job per parseable push time; a malformed
time or unresolvable timezone is skipped, the remaining times still added. -/
def add_user_jobs (nowRef : Int) (u : UserConfig) (jobs : List Job) : List Job :=
  u.push_times.foldl (addStep nowRef u) jobs

/-- `JobManager.remove_user_jobs`: drop every job whose id starts with
`push_{user_id}_`. -/
def remove_user_jobs (uid : String) (jobs : List Job) : List Job :=
  jobs.filter (fun j => ¬ pyStartswith j.id ("push_" ++ uid ++ "_"))

/-- `JobManager.reload_user_jobs`: remove the user's jobs, re-read the config
(passed in as the store's current row for `uid`), re-add only if present and
enabled. -/
def reload_user_jobs (cfg : Option UserConfig) (nowRef : Int) (uid : String)
    (jobs : List Job) : List Job :=
  let cleared := remove_user_jobs uid jobs
  match cfg with
  | some u => if u.enabled ≠ 0 then add_user_jobs nowRef u cleared else cleared
  | none => cleared

/-- The spec's derived schedule `{(u, t) : u.enabled, t ∈ u.delivery_times}`
for a single subscriber's stored row. -/
def derivedSchedule (cfg : Option UserConfig) : List (String × String) :=
  match cfg with
  | some u => if u.enabled ≠ 0 then u.push_times.map (fun t => (u.user_id, t)) else []
  | none => []

/-! ## Messages and cards (`core/feishu_client.py`, `core/message_builder.py`) -/

/-- One entry of the `results['hotlist'][keyword]` lists built by
`_fetch_and_analyze`. -/
structure NewsItem where
  title : String
  url : String
  platform : String
  is_new : Bool
deriving Repr, DecidableEq

/-- One entry of `results['new_items']` (built without the `is_new` key). -/
structure NewNewsItem where
  title : String
  url : String
  platform : String
deriving Repr, DecidableEq

/-- The digest dict `{'hotlist': {keyword: [item]}, 'new_items': [item]}`
returned by `_fetch_and_analyze`; the dict is an association list in insertion
order. -/
structure FetchResults where
  hotlist : List (String × List NewsItem)
  new_items : List NewNewsItem
deriving Repr, DecidableEq

/-- Card payloads, abstracted to the builder invoked and the data handed to
it (`message_builder.py` templates are out of scope). -/
inductive Card where
  | welcome : Card
  | helpCard : Card
  | mainMenu (enabled : Bool) : Card
  | keywordsMenu (keywords : List String) : Card
  | sourcesMenu (sources : List String) : Card
  | timeMenu (times : List String) : Card
  | statusCard (keywords platformNames times : List String)
      (mode : String) (enabled : Bool) : Card
  | textPrompt (title placeholder : String) : Card
  | digest (newsCount : Nat) : Card
deriving Repr, DecidableEq

/-- A message handed to the delivery transport. -/
inductive Msg where
  | text (s : String) : Msg
  | card (c : Card) : Msg
deriving Repr, DecidableEq

/-! ## Push orchestrator (`scheduler/pusher.py`) -/

/-- One `push_to_user` invocation's collaborator behaviour.  Each field is the
outcome of the corresponding external call: `.error e` models the call raising
an exception whose text is `e`.  `generate_user_config`'s payload is the
temporary keywords-file path it creates (the config dict it also returns is
consumed only by the fetch call and is abstracted away); `fetch_inner` is the
body of `_fetch_and_analyze`'s `try`, i.e. the trendradar crawl/analysis
(`.ok none` = empty crawl, mapped to `None`).  `log_push` abstracts
`Database.log_push`'s outcome uniformly over its arguments. -/
structure PushEnv where
  get_user_config : Except String (Option UserConfig)
  generate_user_config : Except String String
  fetch_inner : Except String (Option FetchResults)
  send_text_message : Except String Bool
  send_card_message : Except String Bool
  log_push : Except String Unit

instance exceptDecEq {ε α : Type} [DecidableEq ε] [DecidableEq α] :
    DecidableEq (Except ε α) := fun x y =>
  match x, y with
  | .ok a, .ok b =>
    if h : a = b then isTrue (congrArg _ h)
    else isFalse (fun hh => h (Except.ok.inj hh))
  | .error a, .error b =>
    if h : a = b then isTrue (congrArg _ h)
    else isFalse (fun hh => h (Except.error.inj hh))
  | .ok _, .error _ => isFalse (fun hh => Except.noConfusion hh)
  | .error _, .ok _ => isFalse (fun hh => Except.noConfusion hh)

/-- The observable outcome of one `push_to_user` call: the return value (or a
propagated exception), the messages handed to the transport, the log rows
appended, and the temporary files still existing on exit. -/
structure PushResult where
  result : Except String Bool
  sent : List Msg
  logs : List PushLogEntry
  temp_alive : List String
deriving DecidableEq

/-- `cleanup_temp_files(keywords_file)` in the `finally` block: when the
keywords file was created, it is removed from the set of existing files. -/
def cleanupFiles (kwFile : Option String) (created : List String) :
    List String :=
  match kwFile with
  | none => created
  | some f => created.filter (· ≠ f)

/-- The `except Exception` / `finally` epilogue of `push_to_user`: a thrown
body exception is logged as `failed` with its text and turned into `False`
(an exception from that very `log_push` propagates instead), and
`cleanup_temp_files(keywords_file)` runs on every path. -/
def finishPush (env : PushEnv) (uid : String) (body : Except String Bool)
    (sent : List Msg) (logs : List PushLogEntry)
    (kwFile : Option String) (created : List String) : PushResult :=
  match body with
  | .ok b => ⟨.ok b, sent, logs, cleanupFiles kwFile created⟩
  | .error e =>
    match env.log_push with
    | .ok _ =>
      ⟨.ok false, sent, logs ++ [⟨uid, 0, "failed", some e⟩],
       cleanupFiles kwFile created⟩
    | .error e2 => ⟨.error e2, sent, logs, cleanupFiles kwFile created⟩

/-- The item count loop of `push_to_user` step 4: every grouped-match list's
length plus the new-items list's length. -/
def newsCount (r : FetchResults) : Nat :=
  r.hotlist.foldl (fun acc g => acc + g.2.length) 0 + r.new_items.length

/-- `Pusher._fetch_and_analyze`: its `try` body is `env.fetch_inner`; any
exception is caught inside and becomes `None`. -/
def fetch_and_analyze (env : PushEnv) : Option FetchResults :=
  match env.fetch_inner with
  | .error _ => none
  | .ok r => r

/-- `Pusher.push_to_user`. -/
def push_to_user (env : PushEnv) (uid : String) : PushResult :=
  match env.get_user_config with
  | .error e => finishPush env uid (.error e) [] [] none []
  | .ok none => finishPush env uid (.ok false) [] [] none []
  | .ok (some u) =>
    if u.enabled = 0 then finishPush env uid (.ok false) [] [] none []
    else if u.keywords = [] ∨ u.platforms = [] then
      match env.send_text_message with
      | .error e => finishPush env uid (.error e) [] [] none []
      | .ok _ =>
        finishPush env uid (.ok false)
          [.text "⚠️ 配置不完整，无法推送\n请设置关键词和数据源：\n• /keywords AI,区块链\n• /sources 知乎,微博"]
          [] none []
    else
      match env.generate_user_config with
      | .error e => finishPush env uid (.error e) [] [] none []
      | .ok kwFile =>
        match fetch_and_analyze env with
        | none =>
          match env.log_push with
          | .error e => finishPush env uid (.error e) [] [] (some kwFile) [kwFile]
          | .ok _ =>
            finishPush env uid (.ok true) [] [⟨uid, 0, "success", none⟩]
              (some kwFile) [kwFile]
        | some r =>
          match env.send_card_message with
          | .error e =>
            finishPush env uid (.error e) [] [] (some kwFile) [kwFile]
          | .ok true =>
            match env.log_push with
            | .error e =>
              finishPush env uid (.error e) [.card (.digest (newsCount r))] []
                (some kwFile) [kwFile]
            | .ok _ =>
              finishPush env uid (.ok true) [.card (.digest (newsCount r))]
                [⟨uid, newsCount r, "success", none⟩] (some kwFile) [kwFile]
          | .ok false =>
            match env.log_push with
            | .error e =>
              finishPush env uid (.error e) [.card (.digest (newsCount r))] []
                (some kwFile) [kwFile]
            | .ok _ =>
              finishPush env uid (.ok false) [.card (.digest (newsCount r))]
                [⟨uid, 0, "failed", some "消息发送失败"⟩] (some kwFile) [kwFile]

/-! ## Platform catalog (`config/user_config.py`) -/

/-- `PLATFORM_MAPPING`: display name → platform id, in source order. -/
def PLATFORM_MAPPING : List (String × String) :=
  [("36氪", "36kr"), ("百度", "baidu"), ("哔哩哔哩", "bilibili"),
   ("参考消息", "cankaoxiaoxi"), ("虫部落", "chongbuluo"), ("豆瓣", "douban"),
   ("抖音", "douyin"), ("快讯", "fastbull"), ("FreeBuf", "freebuf"),
   ("格隆汇", "gelonghui"), ("果壳", "ghxi"), ("GitHub", "github"),
   ("Hacker News", "hackernews"), ("虎扑", "hupu"), ("凤凰网", "ifeng"),
   ("爱奇艺", "iqiyi"), ("IT之家", "ithome"), ("金十数据", "jin10"),
   ("稀土掘金", "juejin"), ("靠谱新闻", "kaopu"), ("快手", "kuaishou"),
   ("Linux.do", "linuxdo"), ("财经新闻", "mktnews"), ("牛客", "nowcoder"),
   ("远景论坛", "pcbeta"), ("Product Hunt", "producthunt"),
   ("腾讯视频", "qqvideo"), ("什么值得买", "smzdm"), ("Solidot", "solidot"),
   ("俄罗斯卫星通讯社", "sputniknewscn"), ("少数派", "sspai"),
   ("Steam", "steam"), ("腾讯新闻", "tencent"), ("澎湃新闻", "thepaper"),
   ("贴吧", "tieba"), ("今日头条", "toutiao"), ("V2EX", "v2ex"),
   ("华尔街见闻", "wallstreetcn"), ("微博", "weibo"), ("雪球", "xueqiu"),
   ("联合早报", "zaobao"), ("知乎", "zhihu")]

/-- `PLATFORM_MAPPING.get(name)`. -/
def platformId? (name : String) : Option String :=
  (PLATFORM_MAPPING.find? (fun p => p.1 == name)).map (·.2)

/-- `PLATFORM_NAME_MAPPING.get(pid, pid)` (the reverse dict with the id itself
as fallback). -/
def platformName (pid : String) : String :=
  ((PLATFORM_MAPPING.find? (fun p => p.2 == pid)).map (·.1)).getD pid

/-- `list(PLATFORM_MAPPING.values())`. -/
def allPlatformIds : List String := PLATFORM_MAPPING.map (·.2)

/-- `"、".join(PLATFORM_MAPPING.keys())`, the catalog listing in error texts. -/
def catalogNames : String := strJoin "、" (PLATFORM_MAPPING.map (·.1))

/-! ## Command router (`core/command_handler.py`) -/

/-- Outcome of one time-string validation in the `/time`, waiting-time and
`add_time_confirm` paths: parsed hour/minute or the failure class (`noColon`
and `badParts` are format failures before `int()`, `notInt` a `ValueError`,
`badRange` an out-of-bounds hour/minute). -/
inductive TimeCheck where
  | ok (h m : Int) : TimeCheck
  | noColon : TimeCheck
  | badParts : TimeCheck
  | notInt : TimeCheck
  | badRange : TimeCheck
deriving Repr, DecidableEq

/-- The shared `':' in t` / `t.split(':')` / `int(...)` / range validation. -/
def checkTime (t : String) : TimeCheck :=
  if ¬ pyContainsChar t ':' then .noColon
  else
    match pySplitChar ':' t with
    | [a, b] =>
      match pyInt? a, pyInt? b with
      | some h, some m =>
        if 0 ≤ h ∧ h ≤ 23 ∧ 0 ≤ m ∧ m ≤ 59 then .ok h m else .badRange
      | _, _ => .notInt
    | _ => .badParts

/-- The `/time` validation loop: the corrective message for the first invalid
entry, or `none` when all parse. -/
def timesValidationError : List String → Option String
  | [] => none
  | t :: rest =>
    match checkTime t with
    | .ok _ _ => timesValidationError rest
    | .noColon => some ("时间格式错误：" ++ (t ++ "，应为 HH:MM 格式"))
    | .badParts => some ("时间格式错误：" ++ (t ++ "，应为 HH:MM 格式"))
    | .notInt => some ("时间格式错误：" ++ t)
    | .badRange => some ("时间范围错误：" ++ t)

/-- `UserConfig(user_id=user_id)`: the dataclass defaults used when a
mutating command finds no stored row. -/
def emptyUserConfig (uid : String) : UserConfig :=
  ⟨uid, "", [], [], [], "Asia/Shanghai", "current", 1⟩

/-- The default row `/start` seeds. -/
def startDefaultConfig (uid : String) : UserConfig :=
  ⟨uid, "", ["AI", "区块链"], ["zhihu", "weibo"], ["09:00"],
   "Asia/Shanghai", "current", 1⟩

/-- The default row the conversation handlers auto-provision (all catalog
platforms; timezone from the platform profile when available). -/
def defaultUserConfig (uid : String) (profileTz : Option String) : UserConfig :=
  ⟨uid, "", ["AI", "跨境电商"], allPlatformIds, ["09:00"],
   profileTz.getD "Asia/Shanghai", "current", 1⟩

/-- The `/status` response body (`_handle_status`'s f-string). -/
def statusText (c : UserConfig) : String :=
  "📋 **当前配置**\n\n**关键词**：" ++
  ((if c.keywords ≠ [] then strJoin ", " c.keywords else "未设置") ++
  ("\n**数据源**：" ++
  ((if c.platforms ≠ [] then strJoin ", " (c.platforms.map platformName)
    else "未设置") ++
  ("\n**推送时间**：" ++
  ((if c.push_times ≠ [] then strJoin ", " c.push_times else "未设置") ++
  ("\n**报告模式**：" ++
  (c.report_mode ++
  ("\n**状态**：" ++
  ((if c.enabled ≠ 0 then "启用" else "已暂停") ++
   "\n\n修改配置：\n• /keywords AI,区块链\n• /sources 知乎,微博\n• /time 09:00,18:00\n")))))))))

/-- Result of `CommandHandler.handle_command`: the store's row afterwards, the
messages the handler itself sent (welcome/help cards), and the returned
`(success, response)` pair. -/
structure CmdResult where
  cfg : Option UserConfig
  sent : List Msg
  ok : Bool
  resp : String
deriving DecidableEq

/-- `CommandHandler._handle_start`. -/
def handle_start (uid : String) (cfg0 : Option UserConfig) : CmdResult :=
  match cfg0 with
  | some _ =>
    ⟨cfg0, [], true,
     "您已经初始化过配置了\n输入 /status 查看当前配置\n输入 /help 查看帮助"⟩
  | none =>
    ⟨some (startDefaultConfig uid), [.card .welcome], true,
     "初始化成功！已为您设置默认配置\n输入 /status 查看配置"⟩

/-- `CommandHandler._handle_keywords`. -/
def handle_keywords (uid : String) (cfg0 : Option UserConfig) (args : String) :
    CmdResult :=
  if args = "" then
    ⟨cfg0, [], false, "请提供关键词，例如：/keywords AI,区块链,新能源"⟩
  else
    let kws := pySplitCSV args
    if kws = [] then ⟨cfg0, [], false, "关键词不能为空"⟩
    else if kws.length > 10 then
      ⟨cfg0, [], false, "关键词数量不能超过 10 个"⟩
    else
      let c := cfg0.getD (emptyUserConfig uid)
      ⟨some { c with keywords := kws }, [], true,
       "✅ 关键词已设置：" ++
       (strJoin "、" kws ++
        "\n\n下一步：\n• 选择数据源：/sources 知乎,微博\n• 设置推送时间：/time 09:00")⟩

/-- `CommandHandler._handle_sources`. -/
def handle_sources (uid : String) (cfg0 : Option UserConfig) (args : String) :
    CmdResult :=
  if args = "" then
    ⟨cfg0, [], false,
     "请提供数据源，例如：/sources 知乎,微博\n\n可用数据源：" ++ catalogNames⟩
  else
    let sourceNames := pySplitCSV args
    if sourceNames = [] then ⟨cfg0, [], false, "数据源不能为空"⟩
    else
      let platformIds := sourceNames.filterMap platformId?
      let invalid := sourceNames.filter (fun n => (platformId? n).isNone)
      if invalid ≠ [] then
        ⟨cfg0, [], false,
         "无效的数据源：" ++
         (strJoin ", " invalid ++ ("\n\n可用数据源：" ++ catalogNames))⟩
      else
        let c := cfg0.getD (emptyUserConfig uid)
        ⟨some { c with platforms := platformIds }, [], true,
         "✅ 数据源已设置：" ++
         (strJoin "、" sourceNames ++
          "\n\n下一步：\n• 设置推送时间：/time 09:00,18:00")⟩

/-- `CommandHandler._handle_time`; note it never touches the scheduler. -/
def handle_time (uid : String) (cfg0 : Option UserConfig) (args : String) :
    CmdResult :=
  if args = "" then
    ⟨cfg0, [], false, "请提供推送时间，例如：/time 09:00,18:00"⟩
  else
    let times := pySplitCSV args
    if times = [] then ⟨cfg0, [], false, "推送时间不能为空"⟩
    else
      match timesValidationError times with
      | some msg => ⟨cfg0, [], false, msg⟩
      | none =>
        let c := cfg0.getD (emptyUserConfig uid)
        ⟨some { c with push_times := times }, [], true,
         "✅ 推送时间已设置：每天 " ++
         (strJoin "、" times ++
          "\n\n配置完成！\n• 查看配置：/status\n• 测试推送：/test")⟩

/-- `CommandHandler._handle_mode`. -/
def handle_mode (uid : String) (cfg0 : Option UserConfig) (args : String) :
    CmdResult :=
  if args = "daily" ∨ args = "current" ∨ args = "incremental" then
    let c := cfg0.getD (emptyUserConfig uid)
    let desc :=
      if args = "daily" then "当日汇总模式"
      else if args = "current" then "当前榜单模式"
      else "增量监控模式"
    ⟨some { c with report_mode := args }, [], true, "✅ 报告模式已设置：" ++ desc⟩
  else
    ⟨cfg0, [], false,
     "请提供有效的报告模式：daily, current, incremental\n\n• daily - 当日汇总\n• current - 当前榜单\n• incremental - 增量监控"⟩

/-- `CommandHandler._handle_status`. -/
def handle_status (cfg0 : Option UserConfig) : CmdResult :=
  match cfg0 with
  | none => ⟨cfg0, [], false, "您还未初始化配置\n输入 /start 开始配置"⟩
  | some c => ⟨cfg0, [], true, statusText c⟩

/-- `CommandHandler._handle_test` (the push itself is dispatched by
`handle_event` afterwards). -/
def handle_test (cfg0 : Option UserConfig) : CmdResult :=
  match cfg0 with
  | none => ⟨cfg0, [], false, "您还未初始化配置\n输入 /start 开始配置"⟩
  | some c =>
    if c.keywords = [] ∨ c.platforms = [] then
      ⟨cfg0, [], false,
       "配置不完整，请先设置关键词和数据源\n• /keywords AI,区块链\n• /sources 知乎,微博"⟩
    else ⟨cfg0, [], true, "✅ 测试推送已触发，请稍候..."⟩

/-- `CommandHandler._handle_pause`; note it never touches the scheduler. -/
def handle_pause (cfg0 : Option UserConfig) : CmdResult :=
  match cfg0 with
  | none => ⟨cfg0, [], false, "您还未初始化配置"⟩
  | some c =>
    if c.enabled = 0 then ⟨cfg0, [], true, "推送已经是暂停状态"⟩
    else
      ⟨some { c with enabled := 0 }, [], true,
       "✅ 推送已暂停\n输入 /resume 恢复推送"⟩

/-- `CommandHandler._handle_resume`; note it never touches the scheduler. -/
def handle_resume (cfg0 : Option UserConfig) : CmdResult :=
  match cfg0 with
  | none => ⟨cfg0, [], false, "您还未初始化配置"⟩
  | some c =>
    if c.enabled = 1 then ⟨cfg0, [], true, "推送已经是启用状态"⟩
    else ⟨some { c with enabled := 1 }, [], true, "✅ 推送已恢复"⟩

/-- `CommandHandler._handle_help`. -/
def handle_help (cfg0 : Option UserConfig) : CmdResult :=
  ⟨cfg0, [.card .helpCard], true, "帮助信息已发送"⟩

/-- The lowercased command word `parts[0].lower()` of `handle_command`. -/
def cmdWord (raw : String) : String := pyLower (splitMax1 (pyStrip raw)).1

/-- The argument remainder handed to each handler. -/
def cmdArgs (raw : String) : String := (splitMax1 (pyStrip raw)).2

/-- `CommandHandler.handle_command`: strip, require the `/` prefix, split off
the first word, lowercase it, and dispatch. -/
def handle_command (uid : String) (cfg0 : Option UserConfig) (raw : String) :
    CmdResult :=
  if ¬ pyStartswith (pyStrip raw) "/" then
    ⟨cfg0, [], false, "请使用命令格式，例如：/help"⟩
  else if cmdWord raw = "/start" then handle_start uid cfg0
  else if cmdWord raw = "/keywords" then handle_keywords uid cfg0 (cmdArgs raw)
  else if cmdWord raw = "/sources" then handle_sources uid cfg0 (cmdArgs raw)
  else if cmdWord raw = "/time" then handle_time uid cfg0 (cmdArgs raw)
  else if cmdWord raw = "/mode" then handle_mode uid cfg0 (cmdArgs raw)
  else if cmdWord raw = "/status" then handle_status cfg0
  else if cmdWord raw = "/test" then handle_test cfg0
  else if cmdWord raw = "/pause" then handle_pause cfg0
  else if cmdWord raw = "/resume" then handle_resume cfg0
  else if cmdWord raw = "/help" then handle_help cfg0
  else ⟨cfg0, [], false, "未知命令: " ++ (cmdWord raw ++ "\n输入 /help 查看帮助")⟩

/-! ## Webhook conversation handlers (`main.py`) -/

/-- `user_input_mode[user_id]` values. -/
inductive InputMode where
  | waiting_keyword : InputMode
  | waiting_time : InputMode
deriving Repr, DecidableEq

/-- The per-user slot of `user_temp_state`: the entry can be missing
altogether, present as a dict without a `"sources"` key (what
`del user_temp_state[user_id]["sources"]` in `save_sources` leaves behind),
or present with the draft source list. -/
inductive TempState where
  | absent : TempState
  | noSources : TempState
  | draft (sources : List String) : TempState
deriving Repr, DecidableEq

/-- The process state relevant to one subscriber: the stored config row, the
`user_temp_state[uid]` slot holding the multi-select draft, the pending input
mode (`user_input_mode[uid]`), and the scheduler's live job list. -/
structure FullState where
  config : Option UserConfig
  tempState : TempState
  inputMode : Option InputMode
  jobs : List Job
deriving Repr, DecidableEq

/-- The decoded `value["action"]` variants dispatched by `handle_card_action`,
with the payload each branch reads; `other` covers every unrecognized action
string (which falls through the `elif` chain). -/
inductive CardAction where
  | show_main_menu : CardAction
  | show_keywords_menu : CardAction
  | show_sources_menu : CardAction
  | show_time_menu : CardAction
  | show_status : CardAction
  | add_keyword_prompt : CardAction
  | add_keyword_confirm (user_input : String) : CardAction
  | remove_keyword (keyword : String) : CardAction
  | toggle_source (source : String) : CardAction
  | save_sources : CardAction
  | add_preset_time (time : String) : CardAction
  | add_custom_time_prompt : CardAction
  | add_time_confirm (user_input : String) : CardAction
  | remove_time (time : String) : CardAction
  | toggle_enabled : CardAction
  | view_config : CardAction
  | pause_card : CardAction
  | noop : CardAction
  | other (action : String) : CardAction
deriving Repr, DecidableEq

/-- The status card as both conversation handlers build it. -/
def statusCardOf (c : UserConfig) : Card :=
  .statusCard c.keywords (c.platforms.map platformName) c.push_times
    c.report_mode (c.enabled == 1)

/-- The observable outcome of one `POST /api/card` dispatch: the new state,
the messages sent, and whether the branch raised into the endpoint's
catch-all (`crashed`: the `KeyError` at main.py line 412 when `toggle_source`
finds the temp entry present but its `"sources"` key already deleted by a
previous `save_sources`). -/
structure CardOutcome where
  state : FullState
  msgs : List Msg
  crashed : Bool
deriving Repr, DecidableEq

/-- `POST /api/card` (`handle_card_action`): auto-provisions a default config
row when none exists (`profileTz` is the platform profile's `time_zone`
field, `none` when the profile lookup fails or lacks it), then dispatches on
the decoded action. -/
def handle_card_action (nowRef : Int) (uid : String) (profileTz : Option String)
    (s0 : FullState) (act : CardAction) : CardOutcome :=
  let c := match s0.config with
    | some c => c
    | none => defaultUserConfig uid profileTz
  let s := { s0 with config := some c }
  match act with
  | .show_main_menu => ⟨s, [.card (.mainMenu (c.enabled == 1))], false⟩
  | .show_keywords_menu => ⟨s, [.card (.keywordsMenu c.keywords)], false⟩
  | .show_sources_menu =>
    let d := c.platforms
    ⟨{ s with tempState := .draft d }, [.card (.sourcesMenu d)], false⟩
  | .show_time_menu => ⟨s, [.card (.timeMenu c.push_times)], false⟩
  | .show_status => ⟨s, [.card (statusCardOf c)], false⟩
  | .add_keyword_prompt =>
    ⟨{ s with inputMode := some .waiting_keyword },
     [.card (.textPrompt "**请输入关键词**" "人工智能")], false⟩
  | .add_keyword_confirm user_input =>
    let keyword := pyStrip user_input
    if keyword ≠ "" then
      if keyword ∉ c.keywords ∧ c.keywords.length < 10 then
        let kws := c.keywords ++ [keyword]
        ⟨{ s with config := some { c with keywords := kws } },
         [.card (.keywordsMenu kws), .text ("✅ 已添加关键词：" ++ keyword)],
         false⟩
      else if keyword ∈ c.keywords then
        ⟨s, [.text ("⚠️ 关键词已存在：" ++ keyword)], false⟩
      else ⟨s, [.text "⚠️ 关键词数量已达上限（10个）"], false⟩
    else ⟨s, [.text "⚠️ 关键词不能为空"], false⟩
  | .remove_keyword keyword =>
    if keyword ∈ c.keywords then
      let kws := c.keywords.erase keyword
      ⟨{ s with config := some { c with keywords := kws } },
       [.card (.keywordsMenu kws), .text ("✅ 已删除关键词：" ++ keyword)],
       false⟩
    else ⟨s, [], false⟩
  | .toggle_source source =>
    match s.tempState with
    | .noSources => ⟨s, [], true⟩
    | .absent =>
      let d := c.platforms
      let d' := if source ∈ d then d.erase source else d ++ [source]
      ⟨{ s with tempState := .draft d' }, [.card (.sourcesMenu d')], false⟩
    | .draft d =>
      let d' := if source ∈ d then d.erase source else d ++ [source]
      ⟨{ s with tempState := .draft d' }, [.card (.sourcesMenu d')], false⟩
  | .save_sources =>
    match s.tempState with
    | .draft d =>
      let c' := { c with platforms := d }
      ⟨{ s with config := some c', tempState := .noSources },
       [.card (.mainMenu (c'.enabled == 1)),
        .text ("✅ 数据源已保存：" ++ strJoin "、" (d.map platformName))],
       false⟩
    | .absent => ⟨s, [], false⟩
    | .noSources => ⟨s, [], false⟩
  | .add_preset_time time =>
    if time ≠ "" ∧ time ∉ c.push_times then
      let ts := c.push_times ++ [time]
      let c' := { c with push_times := ts }
      let s' := { s with config := some c' }
      ⟨{ s' with jobs := reload_user_jobs s'.config nowRef uid s'.jobs },
       [.card (.timeMenu ts), .text ("✅ 已添加推送时间：" ++ time)], false⟩
    else if time ∈ c.push_times then
      ⟨s, [.text ("⚠️ 推送时间已存在：" ++ time)], false⟩
    else ⟨s, [], false⟩
  | .add_custom_time_prompt =>
    ⟨{ s with inputMode := some .waiting_time },
     [.card (.textPrompt "**请输入推送时间**\n\n格式：HH:MM" "09:30")], false⟩
  | .add_time_confirm user_input =>
    let time_str := pyStrip user_input
    match checkTime time_str with
    | .ok _ _ =>
      if time_str ∉ c.push_times then
        let ts := c.push_times ++ [time_str]
        let c' := { c with push_times := ts }
        let s' := { s with config := some c' }
        ⟨{ s' with jobs := reload_user_jobs s'.config nowRef uid s'.jobs },
         [.card (.timeMenu ts), .text ("✅ 已添加推送时间：" ++ time_str)],
         false⟩
      else ⟨s, [.text ("⚠️ 推送时间已存在：" ++ time_str)], false⟩
    | .badRange =>
      ⟨s, [.text "⚠️ 时间范围错误，小时应为0-23，分钟应为0-59"], false⟩
    | _ =>
      ⟨s, [.text "⚠️ 时间格式错误，请使用 HH:MM 格式（例如：09:30）"], false⟩
  | .remove_time time =>
    if time ∈ c.push_times then
      let ts := c.push_times.erase time
      let c' := { c with push_times := ts }
      let s' := { s with config := some c' }
      ⟨{ s' with jobs := reload_user_jobs s'.config nowRef uid s'.jobs },
       [.card (.timeMenu ts), .text ("✅ 已删除推送时间：" ++ time)], false⟩
    else ⟨s, [], false⟩
  | .toggle_enabled =>
    let c' := { c with enabled := if c.enabled = 1 then 0 else 1 }
    let s' := { s with config := some c' }
    ⟨{ s' with jobs := reload_user_jobs s'.config nowRef uid s'.jobs },
     [.card (statusCardOf c'),
      .text (if c'.enabled == 1 then "✅ 推送已恢复" else "⏸️ 推送已暂停")],
     false⟩
  | .view_config =>
    let r := handle_command uid s.config "/status"
    ⟨{ s with config := r.cfg },
     r.sent ++ (if r.resp ≠ "" then [.text r.resp] else []), false⟩
  | .pause_card =>
    let r := handle_command uid s.config "/pause"
    let s' := { s with config := r.cfg }
    ⟨{ s' with jobs := reload_user_jobs s'.config nowRef uid s'.jobs },
     r.sent ++ (if r.resp ≠ "" then [.text r.resp] else []), false⟩
  | .noop => ⟨s, [], false⟩
  | .other _ => ⟨s, [], false⟩

/-- The observable outcome of the `im.message.receive_v1` text branch of
`POST /api/event`: the new state, the messages sent, whether the handler goes
on to run `pusher.push_to_user` (the `/test` dispatch at the end), and whether
the branch raised into the endpoint's catch-all (`crashed`: the
`AttributeError` paths where a waiting-input branch reads a missing config
row). -/
structure TextOutcome where
  state : FullState
  msgs : List Msg
  testFired : Bool
  crashed : Bool
deriving Repr, DecidableEq

/-- The text-message branch of `handle_event` in `main.py` (lines 130-254):
pending-input capture, implicit status display with auto-provisioning, and
command dispatch. -/
def handle_event_text (nowRef : Int) (uid : String) (profileTz : Option String)
    (s : FullState) (raw : String) : TextOutcome :=
  let text := pyStrip raw
  match s.inputMode with
  | some .waiting_keyword =>
    let keyword := pyStrip text
    if keyword ≠ "" then
      match s.config with
      | none => ⟨s, [], false, true⟩
      | some c =>
        if keyword ∉ c.keywords ∧ c.keywords.length < 10 then
          let kws := c.keywords ++ [keyword]
          let c' := { c with keywords := kws }
          ⟨{ s with config := some c', inputMode := none },
           [.card (.keywordsMenu kws), .text ("✅ 已添加关键词：" ++ keyword)],
           false, false⟩
        else if keyword ∈ c.keywords then
          ⟨{ s with inputMode := none },
           [.text ("⚠️ 关键词已存在：" ++ keyword)], false, false⟩
        else
          ⟨{ s with inputMode := none },
           [.text "⚠️ 关键词数量已达上限（10个）"], false, false⟩
    else
      ⟨{ s with inputMode := none }, [.text "⚠️ 关键词不能为空"], false, false⟩
  | some .waiting_time =>
    let time_str := pyStrip text
    match checkTime time_str with
    | .ok _ _ =>
      match s.config with
      | none => ⟨s, [], false, true⟩
      | some c =>
        if time_str ∉ c.push_times then
          let ts := c.push_times ++ [time_str]
          let c' := { c with push_times := ts }
          let s' := { s with config := some c', inputMode := none }
          ⟨{ s' with jobs := reload_user_jobs s'.config nowRef uid s'.jobs },
           [.card (.timeMenu ts), .text ("✅ 已添加推送时间：" ++ time_str)],
           false, false⟩
        else
          ⟨{ s with inputMode := none },
           [.text ("⚠️ 推送时间已存在：" ++ time_str)], false, false⟩
    | .badRange =>
      ⟨{ s with inputMode := none },
       [.text "⚠️ 时间范围错误，小时应为0-23，分钟应为0-59"], false, false⟩
    | _ =>
      ⟨{ s with inputMode := none },
       [.text "⚠️ 时间格式错误，请使用 HH:MM 格式（例如：09:30）"], false, false⟩
  | none =>
    if ¬ pyStartswith text "/" then
      let c := match s.config with
        | some c => c
        | none => defaultUserConfig uid profileTz
      ⟨{ s with config := some c }, [.card (statusCardOf c)], false, false⟩
    else
      let r := handle_command uid s.config text
      ⟨{ s with config := r.cfg },
       r.sent ++ (if r.resp ≠ "" then [.text r.resp] else []),
       text = "/test", false⟩

/-! ## Helper lemmas -/

theorem strAppend_ne_empty (a b : String) (h : a ≠ "") : a ++ b ≠ "" := by
  intro hab
  apply h
  have h2 : a.data ++ b.data = [] := by
    rw [← String.data_append, hab]
  exact String.ext (List.append_eq_nil.mp h2).1

theorem timesValidationError_ne (ts : List String) (m : String)
    (h : timesValidationError ts = some m) : m ≠ "" := by
  induction ts with
  | nil => simp [timesValidationError] at h
  | cons t rest ih =>
    revert h
    unfold timesValidationError
    cases checkTime t with
    | ok h' m' => exact fun h => ih h
    | noColon => intro h; rw [← Option.some.inj h]; exact strAppend_ne_empty _ _ (by decide)
    | badParts => intro h; rw [← Option.some.inj h]; exact strAppend_ne_empty _ _ (by decide)
    | notInt => intro h; rw [← Option.some.inj h]; exact strAppend_ne_empty _ _ (by decide)
    | badRange => intro h; rw [← Option.some.inj h]; exact strAppend_ne_empty _ _ (by decide)


theorem handle_start_resp_ne (uid : String) (cfg : Option UserConfig) :
    (handle_start uid cfg).resp ≠ "" := by
  unfold handle_start
  repeat' split
  all_goals (dsimp only; decide)

theorem handle_keywords_resp_ne (uid : String) (cfg : Option UserConfig)
    (args : String) : (handle_keywords uid cfg args).resp ≠ "" := by
  unfold handle_keywords
  dsimp only
  repeat' split
  all_goals first
    | (dsimp only; decide)
    | exact strAppend_ne_empty _ _ (by decide)

theorem handle_sources_resp_ne (uid : String) (cfg : Option UserConfig)
    (args : String) : (handle_sources uid cfg args).resp ≠ "" := by
  unfold handle_sources
  dsimp only
  repeat' split
  all_goals first
    | (dsimp only; decide)
    | exact strAppend_ne_empty _ _ (by decide)

theorem handle_time_resp_ne (uid : String) (cfg : Option UserConfig)
    (args : String) : (handle_time uid cfg args).resp ≠ "" := by
  unfold handle_time
  dsimp only
  repeat' split
  all_goals first
    | (dsimp only; decide)
    | exact strAppend_ne_empty _ _ (by decide)
    | exact timesValidationError_ne _ _ (by assumption)

theorem handle_mode_resp_ne (uid : String) (cfg : Option UserConfig)
    (args : String) : (handle_mode uid cfg args).resp ≠ "" := by
  unfold handle_mode
  dsimp only
  repeat' split
  all_goals (dsimp only; decide)

theorem handle_status_resp_ne (cfg : Option UserConfig) :
    (handle_status cfg).resp ≠ "" := by
  unfold handle_status statusText
  repeat' split
  all_goals first
    | (dsimp only; decide)
    | exact strAppend_ne_empty _ _ (by decide)

theorem handle_test_resp_ne (cfg : Option UserConfig) :
    (handle_test cfg).resp ≠ "" := by
  unfold handle_test
  repeat' split
  all_goals (dsimp only; decide)

theorem handle_pause_resp_ne (cfg : Option UserConfig) :
    (handle_pause cfg).resp ≠ "" := by
  unfold handle_pause
  repeat' split
  all_goals (dsimp only; decide)

theorem handle_resume_resp_ne (cfg : Option UserConfig) :
    (handle_resume cfg).resp ≠ "" := by
  unfold handle_resume
  repeat' split
  all_goals (dsimp only; decide)

set_option maxHeartbeats 1600000 in
theorem handle_command_resp_ne (uid : String) (cfg : Option UserConfig)
    (raw : String) : (handle_command uid cfg raw).resp ≠ "" := by
  unfold handle_command
  split
  · dsimp only
    decide
  split
  · exact handle_start_resp_ne uid cfg
  split
  · exact handle_keywords_resp_ne uid cfg (cmdArgs raw)
  split
  · exact handle_sources_resp_ne uid cfg (cmdArgs raw)
  split
  · exact handle_time_resp_ne uid cfg (cmdArgs raw)
  split
  · exact handle_mode_resp_ne uid cfg (cmdArgs raw)
  split
  · exact handle_status_resp_ne cfg
  split
  · exact handle_test_resp_ne cfg
  split
  · exact handle_pause_resp_ne cfg
  split
  · exact handle_resume_resp_ne cfg
  split
  · dsimp only [handle_help]
    decide
  · exact strAppend_ne_empty "未知命令: " _ (by decide)

theorem foldl_add_length (l : List (String × List NewsItem)) (a : Nat) :
    l.foldl (fun acc g => acc + g.2.length) a =
      a + (l.map (fun g => g.2.length)).sum := by
  induction l generalizing a with
  | nil => simp
  | cons x xs ih => simp [ih, Nat.add_assoc]

theorem newsCount_eq (r : FetchResults) :
    newsCount r = (r.hotlist.map (fun g => g.2.length)).sum + r.new_items.length := by
  unfold newsCount
  rw [foldl_add_length, Nat.zero_add]

theorem pyStartswith_of_append (p q : String) :
    pyStartswith (p ++ q) p = true := by
  unfold pyStartswith
  rw [String.data_append, List.isPrefixOf_iff_prefix]
  exact List.prefix_append _ _

theorem utcTrigger_nowRef_irrelevant (n1 n2 offset h m : Int) :
    utcTrigger n1 offset h m = utcTrigger n2 offset h m := by
  simp only [utcTrigger]
  have key : ∀ n : Int,
      ((n + offset) / 1440 * 1440 + h * 60 + m - offset) % 1440 =
        (h * 60 + m - offset) % 1440 := by
    intro n
    omega
  rw [key n1, key n2]

theorem addStep_parse_none (nowRef : Int) (u : UserConfig) (js : List Job)
    (t : String) (hp : parsePushTime t = none) :
    addStep nowRef u js t = js := by
  unfold addStep
  rw [hp]

theorem addStep_zone_none (nowRef : Int) (u : UserConfig) (js : List Job)
    (t : String) (hz : zoneOffset? u.timezone = none) :
    addStep nowRef u js t = js := by
  unfold addStep
  rw [hz]
  rcases parsePushTime t with _ | ⟨h, m⟩ <;> rfl

theorem addStep_some (nowRef : Int) (u : UserConfig) (js : List Job)
    (t : String) (h m off : Int) (hp : parsePushTime t = some (h, m))
    (hz : zoneOffset? u.timezone = some off) :
    addStep nowRef u js t =
      addJob ⟨"push_" ++ u.user_id ++ "_" ++ t, u.user_id, t,
        (utcTrigger nowRef off h m).1, (utcTrigger nowRef off h m).2⟩ js := by
  unfold addStep
  rw [hp, hz]

theorem remove_map_replace (uid : String) (j : Job)
    (hj : pyStartswith j.id ("push_" ++ uid ++ "_") = true) (l : List Job) :
    remove_user_jobs uid (l.map (fun x => if x.id = j.id then j else x)) =
      remove_user_jobs uid l := by
  induction l with
  | nil => rfl
  | cons x xs ih =>
    simp only [List.map_cons, remove_user_jobs, List.filter_cons] at *
    by_cases hx : x.id = j.id
    · rw [if_pos hx]
      have hjx : pyStartswith x.id ("push_" ++ uid ++ "_") = true := by
        rw [hx]; exact hj
      simp only [hj, hjx, decide_not, Bool.not_true, Bool.false_eq_true,
        if_neg, ite_false]
      simpa using ih
    · rw [if_neg hx]
      by_cases hpx : pyStartswith x.id ("push_" ++ uid ++ "_") = true
      · simp only [hpx, decide_not, Bool.not_true, Bool.false_eq_true, ite_false]
        simpa using ih
      · simp only [Bool.not_eq_true] at hpx
        simp only [hpx, decide_not, Bool.not_false, ite_true]
        have ih' := ih
        simp only [decide_not] at ih'
        rw [ih']

theorem remove_user_jobs_addJob (uid : String) (j : Job) (l : List Job)
    (hj : pyStartswith j.id ("push_" ++ uid ++ "_") = true) :
    remove_user_jobs uid (addJob j l) = remove_user_jobs uid l := by
  unfold addJob
  split
  · exact remove_map_replace uid j hj l
  · unfold remove_user_jobs
    rw [List.filter_append]
    simp [hj]

theorem remove_user_jobs_add_user_jobs (uid : String) (nowRef : Int)
    (u : UserConfig) (hu : u.user_id = uid) (l : List Job) :
    remove_user_jobs uid (add_user_jobs nowRef u l) = remove_user_jobs uid l := by
  unfold add_user_jobs
  generalize u.push_times = ts
  induction ts generalizing l with
  | nil => rfl
  | cons t rest ih =>
    rw [List.foldl_cons]
    cases hp : parsePushTime t with
    | none => rw [addStep_parse_none _ _ _ _ hp]; exact ih l
    | some hm =>
      obtain ⟨h, m⟩ := hm
      cases hz : zoneOffset? u.timezone with
      | none => rw [addStep_zone_none _ _ _ _ hz]; exact ih l
      | some off =>
        rw [addStep_some _ _ _ _ _ _ _ hp hz, ih]
        exact remove_user_jobs_addJob uid _ l
          (by rw [hu]; exact pyStartswith_of_append ("push_" ++ uid ++ "_") t)

theorem remove_user_jobs_idem (uid : String) (l : List Job) :
    remove_user_jobs uid (remove_user_jobs uid l) = remove_user_jobs uid l := by
  unfold remove_user_jobs
  rw [List.filter_filter]
  simp

theorem add_user_jobs_nowRef_irrelevant (n1 n2 : Int) (u : UserConfig)
    (l : List Job) : add_user_jobs n1 u l = add_user_jobs n2 u l := by
  unfold add_user_jobs
  generalize u.push_times = ts
  induction ts generalizing l with
  | nil => rfl
  | cons t rest ih =>
    rw [List.foldl_cons, List.foldl_cons]
    cases hp : parsePushTime t with
    | none =>
      rw [addStep_parse_none n1 _ _ _ hp, addStep_parse_none n2 _ _ _ hp]
      exact ih l
    | some hm =>
      obtain ⟨h, m⟩ := hm
      cases hz : zoneOffset? u.timezone with
      | none =>
        rw [addStep_zone_none n1 _ _ _ hz, addStep_zone_none n2 _ _ _ hz]
        exact ih l
      | some off =>
        rw [addStep_some n1 _ _ _ _ _ _ hp hz, addStep_some n2 _ _ _ _ _ _ hp hz,
          utcTrigger_nowRef_irrelevant n1 n2 off h m]
        exact ih _

/-! ## Claim theorems -/

/-- C8: reloading one subscriber's jobs twice in succession with no
configuration change in between (the store row `cfg` is read both times, at
possibly different reference instants) yields the identical live job list —
same ids, owners, delivery-time strings and triggers — as reloading once.
The store-consistency hypothesis says the row fetched for `uid` carries
`user_id = uid`, which `Database.get_user_config`'s `WHERE user_id = ?`
guarantees. -/
theorem reload_user_jobs_idempotent (cfg : Option UserConfig) (n1 n2 : Int)
    (uid : String) (s : List Job)
    (hcons : ∀ u, cfg = some u → u.user_id = uid) :
    reload_user_jobs cfg n2 uid (reload_user_jobs cfg n1 uid s) =
      reload_user_jobs cfg n1 uid s := by
  cases cfg with
  | none => exact remove_user_jobs_idem uid s
  | some u =>
    have hu : u.user_id = uid := hcons u rfl
    simp only [reload_user_jobs]
    by_cases he : u.enabled ≠ 0
    · simp only [if_pos he]
      rw [remove_user_jobs_add_user_jobs uid n1 u hu, remove_user_jobs_idem,
        add_user_jobs_nowRef_irrelevant n2 n1]
    · simp only [if_neg he]
      exact remove_user_jobs_idem uid s

/-- Witness for C8 at a concrete subscriber and two distinct instants. -/
theorem reload_user_jobs_idempotent_witness :
    reload_user_jobs (some ⟨"u8", "", ["AI"], ["zhihu"], ["09:00", "18:30"],
        "Asia/Shanghai", "current", 1⟩) 1444 "u8"
      (reload_user_jobs (some ⟨"u8", "", ["AI"], ["zhihu"], ["09:00", "18:30"],
        "Asia/Shanghai", "current", 1⟩) 3 "u8" []) =
    reload_user_jobs (some ⟨"u8", "", ["AI"], ["zhihu"], ["09:00", "18:30"],
        "Asia/Shanghai", "current", 1⟩) 3 "u8" [] :=
  reload_user_jobs_idempotent _ 3 1444 "u8" []
    (fun u h => by cases h; rfl)

/-- The subscriber of the C6 scenario: `Asia/Shanghai`, delivery time
`09:00`. -/
def c6_user : UserConfig :=
  ⟨"u6", "", ["AI"], ["zhihu"], ["09:00"], "Asia/Shanghai", "current", 1⟩

/-- C6: for the `Asia/Shanghai` subscriber with delivery time `09:00`, on any
current reference instant (any DST-free date, since the modelled offset is the
fixed +8h), `add_user_jobs` registers exactly one job whose reference-clock
(UTC) trigger is `01:00`. -/
theorem shanghai_0900_trigger_is_0100_utc (nowRef : Int) :
    add_user_jobs nowRef c6_user [] =
      [⟨"push_u6_09:00", "u6", "09:00", 1, 0⟩] := by
  have hp : parsePushTime "09:00" = some (9, 0) := by decide
  have hz : zoneOffset? c6_user.timezone = some 480 := by decide
  have ht : utcTrigger nowRef 480 9 0 = (1, 0) := by
    simp only [utcTrigger]
    have h1 : ((nowRef + 480) / 1440 * 1440 + 9 * 60 + 0 - 480) % 1440 = 60 := by
      omega
    rw [h1]
    decide
  show List.foldl (addStep nowRef c6_user) [] ["09:00"] =
    [⟨"push_u6_09:00", "u6", "09:00", 1, 0⟩]
  rw [List.foldl_cons, addStep_some nowRef c6_user [] "09:00" 9 0 480 hp hz, ht]
  rfl

/-- The subscriber of the C1 failing input: enabled, one delivery time,
with its job live (the state a fresh `reload_user_jobs` produces). -/
def c1_user : UserConfig :=
  ⟨"u1", "", ["AI"], ["zhihu"], ["09:00"], "Asia/Shanghai", "current", 1⟩

/-- The C1 starting state: config stored and its one job live. -/
def c1_state : FullState :=
  ⟨some c1_user, .absent, none, reload_user_jobs (some c1_user) 0 "u1" []⟩

/-- C1 (failing input): the `/pause` text command disables the subscriber in
the store but the command dispatch path never invokes `reload_user_jobs`, so
the live job set still contains `("u1", "09:00")` while the spec's derived
schedule `{(u, t) : u.enabled, t ∈ u.delivery_times}` is empty — the live job
set drifts from the stored config. -/
theorem pause_command_skips_scheduler_reload :
    (handle_event_text 0 "u1" none c1_state "/pause").state.config =
        some { c1_user with enabled := 0 }
    ∧ (handle_event_text 0 "u1" none c1_state "/pause").state.jobs =
        c1_state.jobs
    ∧ (handle_event_text 0 "u1" none c1_state "/pause").state.jobs.map
        (fun j => (j.userId, j.timeStr)) = [("u1", "09:00")]
    ∧ derivedSchedule
        (handle_event_text 0 "u1" none c1_state "/pause").state.config = [] := by
  refine ⟨rfl, rfl, rfl, rfl⟩

/-- The subscriber of the C2 counterexample. -/
def c2_user : UserConfig :=
  ⟨"u2", "", ["AI"], ["zhihu"], ["09:00"], "Asia/Shanghai", "current", 1⟩

/-- C2 counterexample environment: every collaborator behaves, except that the
trendradar fetch/analyze call raises `网络异常`. -/
def c2_env : PushEnv :=
  ⟨.ok (some c2_user), .ok "keywords_u2.txt", .error "网络异常",
   .ok true, .ok true, .ok ()⟩

/-- C2 (counterexample): with the fetch/analyze call raising, `push_to_user`
appends a `success` entry with count 0 and returns `True`; no `failed` entry
carrying the error detail exists, contradicting the claim. -/
theorem fetch_exception_not_logged_failed :
    (push_to_user c2_env "u2").logs = [⟨"u2", 0, "success", none⟩]
    ∧ (push_to_user c2_env "u2").result = .ok true
    ∧ ∀ l ∈ (push_to_user c2_env "u2").logs, l.status ≠ "failed" := by
  refine ⟨rfl, rfl, ?_⟩
  decide

/-- C2 (amended): an exception from the fetch/analyze call is caught inside
`_fetch_and_analyze`, which returns `None`; `push_to_user` then takes the
nothing-to-report path — a `success` log entry with count 0, return `True`,
no message sent, temp file cleaned — and the exception never reaches the
caller.  (Only exceptions raised elsewhere in the orchestration body are
logged `failed`.) -/
theorem fetch_exception_treated_as_no_data (env : PushEnv) (uid : String)
    (u : UserConfig) (e f : String)
    (h1 : env.get_user_config = .ok (some u)) (h2 : u.enabled ≠ 0)
    (h3 : u.keywords ≠ []) (h4 : u.platforms ≠ [])
    (h5 : env.generate_user_config = .ok f) (h6 : env.fetch_inner = .error e)
    (h7 : env.log_push = .ok ()) :
    push_to_user env uid = ⟨.ok true, [], [⟨uid, 0, "success", none⟩], []⟩ := by
  have h34 : ¬ (u.keywords = [] ∨ u.platforms = []) := not_or.mpr ⟨h3, h4⟩
  simp only [push_to_user, fetch_and_analyze, finishPush, cleanupFiles,
    h1, h5, h6, h7, if_neg h2, if_neg h34]
  simp

/-- Witness for C2's amended claim at the counterexample environment. -/
theorem fetch_exception_treated_as_no_data_witness :
    push_to_user c2_env "u2" = ⟨.ok true, [], [⟨"u2", 0, "success", none⟩], []⟩ :=
  fetch_exception_treated_as_no_data c2_env "u2" c2_user "网络异常"
    "keywords_u2.txt" rfl (by decide) (by decide) (by decide) rfl rfl rfl

/-- C4: whenever the fetch service returns a digest and the card send
succeeds, the count rendered into the digest card and recorded in the
`success` log row is the sum of the lengths of all grouped-match lists plus
the length of the new-items list — an item listed both under a keyword and as
new is counted once in each. -/
theorem digest_count_sums_groups_and_new_items (env : PushEnv) (uid : String)
    (u : UserConfig) (f : String) (r : FetchResults)
    (h1 : env.get_user_config = .ok (some u)) (h2 : u.enabled ≠ 0)
    (h3 : u.keywords ≠ []) (h4 : u.platforms ≠ [])
    (h5 : env.generate_user_config = .ok f)
    (h6 : env.fetch_inner = .ok (some r))
    (h7 : env.send_card_message = .ok true) (h8 : env.log_push = .ok ()) :
    (push_to_user env uid).sent =
      [.card (.digest
        ((r.hotlist.map (fun g => g.2.length)).sum + r.new_items.length))]
    ∧ (push_to_user env uid).logs =
      [⟨uid, (r.hotlist.map (fun g => g.2.length)).sum + r.new_items.length,
        "success", none⟩] := by
  have h34 : ¬ (u.keywords = [] ∨ u.platforms = []) := not_or.mpr ⟨h3, h4⟩
  simp only [push_to_user, fetch_and_analyze, finishPush, cleanupFiles,
    h1, h5, h6, h7, h8, if_neg h2, if_neg h34, newsCount_eq]
  simp

/-- The item of the C4 scenario, listed both under keyword `AI` and as new. -/
def item_a : NewsItem := ⟨"itemA", "#", "未知", true⟩

/-- `item_a` as it appears in `new_items` (built without the `is_new` key). -/
def item_a_new : NewNewsItem := ⟨"itemA", "#", "未知"⟩

/-- The C4 scenario digest `{groupedMatches: {"AI": [itemA]}, newItems:
[itemA]}`. -/
def c4_results : FetchResults := ⟨[("AI", [item_a])], [item_a_new]⟩

/-- The subscriber and collaborators of the C4 scenario. -/
def c4_env : PushEnv :=
  ⟨.ok (some ⟨"u4", "", ["AI"], ["zhihu"], ["09:00"], "Asia/Shanghai",
    "current", 1⟩),
   .ok "keywords_u4.txt", .ok (some c4_results), .ok true, .ok true, .ok ()⟩

/-- Witness for C4: the scenario digest yields count 2 — `itemA` once under
`AI` and once among the new items. -/
theorem digest_count_sums_groups_and_new_items_witness :
    (push_to_user c4_env "u4").sent = [.card (.digest 2)]
    ∧ (push_to_user c4_env "u4").logs = [⟨"u4", 2, "success", none⟩] :=
  digest_count_sums_groups_and_new_items c4_env "u4"
    ⟨"u4", "", ["AI"], ["zhihu"], ["09:00"], "Asia/Shanghai", "current", 1⟩
    "keywords_u4.txt" c4_results rfl (by decide) (by decide) (by decide)
    rfl rfl rfl rfl

/-- C5: for an enabled subscriber whose keyword list (or source list) is
empty, `push_to_user` sends exactly the corrective guidance text, returns
`False`, and appends no log row at all. -/
theorem empty_keywords_guidance_no_log (env : PushEnv) (uid : String)
    (u : UserConfig) (b : Bool)
    (h1 : env.get_user_config = .ok (some u)) (h2 : u.enabled ≠ 0)
    (h3 : u.keywords = [] ∨ u.platforms = [])
    (h4 : env.send_text_message = .ok b) :
    push_to_user env uid =
      ⟨.ok false,
       [.text "⚠️ 配置不完整，无法推送\n请设置关键词和数据源：\n• /keywords AI,区块链\n• /sources 知乎,微博"],
       [], []⟩ := by
  simp only [push_to_user, finishPush, cleanupFiles, h1, h4, if_neg h2,
    if_pos h3]

/-- Witness for C5: a subscriber with no keywords gets the guidance message
and no log entry. -/
theorem empty_keywords_guidance_no_log_witness :
    push_to_user
      ⟨.ok (some ⟨"u5", "", [], ["zhihu"], ["09:00"], "Asia/Shanghai",
        "current", 1⟩), .ok "keywords_u5.txt", .ok none, .ok true, .ok true,
        .ok ()⟩ "u5" =
      ⟨.ok false,
       [.text "⚠️ 配置不完整，无法推送\n请设置关键词和数据源：\n• /keywords AI,区块链\n• /sources 知乎,微博"],
       [], []⟩ :=
  empty_keywords_guidance_no_log _ "u5" _ true rfl (by decide)
    (Or.inl rfl) rfl

theorem push_temp_alive (env : PushEnv) (uid : String) :
    (push_to_user env uid).temp_alive = [] := by
  unfold push_to_user finishPush
  repeat' split
  all_goals try rfl
  all_goals simp [cleanupFiles]

theorem finishPush_not_error (env : PushEnv) (uid : String)
    (body : Except String Bool) (sent : List Msg) (logs : List PushLogEntry)
    (kwFile : Option String) (created : List String) (e2 : String)
    (h : env.log_push = .ok ()) :
    (finishPush env uid body sent logs kwFile created).result ≠ .error e2 := by
  cases body with
  | ok b => exact fun hx => Except.noConfusion hx
  | error e =>
    unfold finishPush
    rw [h]
    exact fun hx => Except.noConfusion hx

theorem push_result_not_error (env : PushEnv) (uid : String) (e2 : String)
    (h : env.log_push = .ok ()) :
    (push_to_user env uid).result ≠ .error e2 := by
  unfold push_to_user
  rw [h]
  repeat' split
  all_goals exact finishPush_not_error env uid _ _ _ _ _ e2 h

theorem push_result_ok (env : PushEnv) (uid : String)
    (h : env.log_push = .ok ()) :
    ∃ b, (push_to_user env uid).result = .ok b := by
  cases hr : (push_to_user env uid).result with
  | ok b => exact ⟨b, rfl⟩
  | error e2 => exact absurd hr (push_result_not_error env uid e2 h)

theorem finishPush_error_log (env : PushEnv) (uid : String)
    (body : Except String Bool) (sent : List Msg) (logs : List PushLogEntry)
    (kwFile : Option String) (created : List String) (e0 e2 : String)
    (hl : env.log_push = .error e0) :
    (finishPush env uid body sent logs kwFile created).result = .error e2 →
      env.log_push = .error e2 := by
  cases body with
  | ok b => exact fun hx => absurd hx (fun hh => Except.noConfusion hh)
  | error e =>
    unfold finishPush
    rw [hl]
    intro hx
    simpa using hx

theorem push_error_log (env : PushEnv) (uid : String) (e2 : String)
    (h : (push_to_user env uid).result = .error e2) :
    env.log_push = .error e2 := by
  cases hl : env.log_push with
  | ok u0 =>
    exact absurd h (push_result_not_error env uid e2 (by rw [hl]))
  | error e0 =>
    unfold push_to_user at h
    rw [hl] at h
    repeat' split at h
    all_goals
      (have hres := finishPush_error_log env uid _ _ _ _ _ e0 e2 hl h;
       rw [hl] at hres; exact hres)

/-- The subscriber of the C10 counterexample and witness. -/
def c10_user : UserConfig :=
  ⟨"u10", "", ["AI"], ["zhihu"], ["09:00"], "Asia/Shanghai", "current", 1⟩

/-- C10 counterexample environment: config generation raises, and the log
append itself raises too. -/
def c10_env : PushEnv :=
  ⟨.ok (some c10_user), .error "磁盘错误", .ok none, .ok true, .ok true,
   .error "数据库被锁定"⟩

/-- C10 (counterexample): when the body throws and `db.log_push` inside the
`except` clause throws as well, the log exception propagates out of
`push_to_user` — it does not always return a boolean. -/
theorem push_propagates_log_exception :
    (push_to_user c10_env "u10").result = .error "数据库被锁定" := rfl

/-- C10 (amended): the temp keywords file is cleaned up on every exit path
unconditionally; provided the log-append collaborator does not throw,
`push_to_user` always returns a boolean; an exception can propagate only when
`db.log_push` itself throws (and it is that exception); and a body exception —
exemplified by `generate_user_config` raising — is recorded as a `failed` log
row carrying the detail, with `False` returned. -/
theorem push_boolean_total_unless_log_throws (env : PushEnv) (uid : String)
    (u : UserConfig) (e : String) :
    (push_to_user env uid).temp_alive = []
    ∧ (env.log_push = .ok () → ∃ b, (push_to_user env uid).result = .ok b)
    ∧ (∀ e2, (push_to_user env uid).result = .error e2 →
        env.log_push = .error e2)
    ∧ (env.log_push = .ok () → env.get_user_config = .ok (some u) →
        u.enabled ≠ 0 → u.keywords ≠ [] → u.platforms ≠ [] →
        env.generate_user_config = .error e →
        push_to_user env uid =
          ⟨.ok false, [], [⟨uid, 0, "failed", some e⟩], []⟩) := by
  refine ⟨push_temp_alive env uid, fun h => push_result_ok env uid h,
    fun e2 h => push_error_log env uid e2 h, fun h7 h1 h2 h3 h4 h5 => ?_⟩
  have h34 : ¬ (u.keywords = [] ∨ u.platforms = []) := not_or.mpr ⟨h3, h4⟩
  simp only [push_to_user, finishPush, cleanupFiles, h1, h5, h7,
    if_neg h2, if_neg h34, List.nil_append]

/-- Witness environment for C10's amended claim: body throws, log append
succeeds. -/
def c10w_env : PushEnv :=
  ⟨.ok (some c10_user), .error "磁盘错误", .ok none, .ok true, .ok true, .ok ()⟩

/-- Witness for C10's amended claim. -/
theorem push_boolean_total_unless_log_throws_witness :
    (push_to_user c10w_env "u10").temp_alive = []
    ∧ (∃ b, (push_to_user c10w_env "u10").result = .ok b)
    ∧ push_to_user c10w_env "u10" =
        ⟨.ok false, [], [⟨"u10", 0, "failed", some "磁盘错误"⟩], []⟩ := by
  obtain ⟨ha, hb, hc, hd⟩ :=
    push_boolean_total_unless_log_throws c10w_env "u10" c10_user "磁盘错误"
  exact ⟨ha, hb rfl, hd rfl rfl (by decide) (by decide) (by decide) rfl⟩

/-- C9: with the source editor opened (draft seeded from the committed set),
toggling a source that is not committed on and then off mutates only the
draft — the committed config is unchanged after each toggle — and `save`
then commits a source set equal to the original one. -/
theorem toggle_on_off_save_preserves_sources
    (nowRef : Int) (uid : String) (profileTz : Option String)
    (s0 : FullState) (c : UserConfig) (src : String)
    (hc : s0.config = some c) (hs : src ∉ c.platforms) :
    ((handle_card_action nowRef uid profileTz s0
        .show_sources_menu).state.config = some c)
    ∧ ((handle_card_action nowRef uid profileTz
        (handle_card_action nowRef uid profileTz s0 .show_sources_menu).state
        (.toggle_source src)).state.config = some c)
    ∧ ((handle_card_action nowRef uid profileTz
        (handle_card_action nowRef uid profileTz
          (handle_card_action nowRef uid profileTz s0
            .show_sources_menu).state
          (.toggle_source src)).state
        (.toggle_source src)).state.config = some c)
    ∧ ((handle_card_action nowRef uid profileTz
        (handle_card_action nowRef uid profileTz
          (handle_card_action nowRef uid profileTz
            (handle_card_action nowRef uid profileTz s0
              .show_sources_menu).state
            (.toggle_source src)).state
          (.toggle_source src)).state
        .save_sources).state.config = some c) := by
  have h1 : (handle_card_action nowRef uid profileTz s0
      .show_sources_menu).state
      = ⟨some c, .draft c.platforms, s0.inputMode, s0.jobs⟩ := by
    simp only [handle_card_action, hc]
  have h2 : (handle_card_action nowRef uid profileTz
      ⟨some c, .draft c.platforms, s0.inputMode, s0.jobs⟩
      (.toggle_source src)).state
      = ⟨some c, .draft (c.platforms ++ [src]), s0.inputMode, s0.jobs⟩ := by
    simp only [handle_card_action, if_neg hs]
  have hmem : src ∈ c.platforms ++ [src] := by simp
  have herase : (c.platforms ++ [src]).erase src = c.platforms := by
    rw [List.erase_append_right _ hs, List.erase_cons_head, List.append_nil]
  have h3 : (handle_card_action nowRef uid profileTz
      ⟨some c, .draft (c.platforms ++ [src]), s0.inputMode, s0.jobs⟩
      (.toggle_source src)).state
      = ⟨some c, .draft c.platforms, s0.inputMode, s0.jobs⟩ := by
    simp only [handle_card_action, if_pos hmem, herase]
  have h4 : (handle_card_action nowRef uid profileTz
      ⟨some c, .draft c.platforms, s0.inputMode, s0.jobs⟩
      .save_sources).state
      = ⟨some c, .noSources, s0.inputMode, s0.jobs⟩ := by
    simp only [handle_card_action]
  rw [h1, h2, h3, h4]
  exact ⟨rfl, rfl, rfl, rfl⟩

/-- The subscriber of the C9 witness. -/
def c9_user : UserConfig :=
  ⟨"u9", "", ["AI"], ["zhihu"], ["09:00"], "Asia/Shanghai", "current", 1⟩

/-- Witness for C9: toggling `github` on and off and saving leaves the
committed set `["zhihu"]`. -/
theorem toggle_on_off_save_preserves_sources_witness :
    ((handle_card_action 0 "u9" none ⟨some c9_user, .absent, none, []⟩
        .show_sources_menu).state.config = some c9_user)
    ∧ ((handle_card_action 0 "u9" none
        (handle_card_action 0 "u9" none ⟨some c9_user, .absent, none, []⟩
          .show_sources_menu).state
        (.toggle_source "github")).state.config = some c9_user)
    ∧ ((handle_card_action 0 "u9" none
        (handle_card_action 0 "u9" none
          (handle_card_action 0 "u9" none ⟨some c9_user, .absent, none, []⟩
            .show_sources_menu).state
          (.toggle_source "github")).state
        (.toggle_source "github")).state.config = some c9_user)
    ∧ ((handle_card_action 0 "u9" none
        (handle_card_action 0 "u9" none
          (handle_card_action 0 "u9" none
            (handle_card_action 0 "u9" none ⟨some c9_user, .absent, none, []⟩
              .show_sources_menu).state
            (.toggle_source "github")).state
          (.toggle_source "github")).state
        .save_sources).state.config = some c9_user) :=
  toggle_on_off_save_preserves_sources 0 "u9" none
    ⟨some c9_user, .absent, none, []⟩ c9_user "github" rfl (by decide)

/-- C7 (counterexample): the `/keywords` command stores the comma-split
argument list verbatim — `/keywords AI,AI` stores `["AI", "AI"]`, a
duplicated keyword list, violating the deduplication invariant. -/
theorem keywords_command_stores_duplicates :
    (handle_command "u7" (some (emptyUserConfig "u7")) "/keywords AI,AI").cfg =
      some { emptyUserConfig "u7" with keywords := ["AI", "AI"] }
    ∧ ¬ (["AI", "AI"] : List String).Nodup :=
  ⟨rfl, by decide⟩
theorem nodup_append_singleton {α : Type} [DecidableEq α] {l : List α} {a : α}
    (h : l.Nodup) (ha : a ∉ l) : (l ++ [a]).Nodup := by
  rw [List.nodup_append]
  refine ⟨h, List.nodup_singleton a, ?_⟩
  intro x hx hxa
  rw [List.mem_singleton] at hxa
  exact ha (hxa ▸ hx)

theorem handle_command_status_cfg (uid : String) (c : UserConfig) :
    (handle_command uid (some c) "/status").cfg = some c := rfl

theorem handle_command_pause_preserves (uid : String) (c c' : UserConfig)
    (h : (handle_command uid (some c) "/pause").cfg = some c') :
    c'.keywords = c.keywords ∧ c'.push_times = c.push_times := by
  have hd : handle_command uid (some c) "/pause" =
      (if c.enabled = 0 then (⟨some c, [], true, "推送已经是暂停状态"⟩ : CmdResult)
       else ⟨some { c with enabled := 0 }, [], true,
         "✅ 推送已暂停\n输入 /resume 恢复推送"⟩) := rfl
  rw [hd] at h
  by_cases he : c.enabled = 0
  · rw [if_pos he] at h
    cases h
    exact ⟨rfl, rfl⟩
  · rw [if_neg he] at h
    cases h
    exact ⟨rfl, rfl⟩

/-- C7 (amended): every card-action mutation and every waiting-input text
capture preserves deduplication of the stored keyword and delivery-time
lists (appends are membership-guarded, removals erase); the `/keywords` and
`/time` command paths, by contrast, store the comma-split input verbatim and
can store duplicates (see the counterexample). -/
theorem conversation_paths_preserve_dedup
    (nowRef : Int) (uid : String) (profileTz : Option String)
    (s : FullState) (c c₁ c₂ : UserConfig) (act : CardAction)
    (m : InputMode) (raw : String)
    (hc : s.config = some c) (hk : c.keywords.Nodup)
    (ht : c.push_times.Nodup) :
    ((handle_card_action nowRef uid profileTz s act).state.config = some c₁ →
      c₁.keywords.Nodup ∧ c₁.push_times.Nodup)
    ∧ (s.inputMode = some m →
      (handle_event_text nowRef uid profileTz s raw).state.config = some c₂ →
      c₂.keywords.Nodup ∧ c₂.push_times.Nodup) := by
  refine ⟨?_, ?_⟩
  · cases act with
    | show_main_menu =>
      simp only [handle_card_action, hc]
      intro h1; cases h1; exact ⟨hk, ht⟩
    | show_keywords_menu =>
      simp only [handle_card_action, hc]
      intro h1; cases h1; exact ⟨hk, ht⟩
    | show_sources_menu =>
      simp only [handle_card_action, hc]
      intro h1; cases h1; exact ⟨hk, ht⟩
    | show_time_menu =>
      simp only [handle_card_action, hc]
      intro h1; cases h1; exact ⟨hk, ht⟩
    | show_status =>
      simp only [handle_card_action, hc]
      intro h1; cases h1; exact ⟨hk, ht⟩
    | add_keyword_prompt =>
      simp only [handle_card_action, hc]
      intro h1; cases h1; exact ⟨hk, ht⟩
    | add_keyword_confirm inp =>
      simp only [handle_card_action, hc]
      split
      · split
        · rename_i hg
          intro h1; cases h1
          exact ⟨nodup_append_singleton hk hg.1, ht⟩
        · split
          · intro h1; cases h1; exact ⟨hk, ht⟩
          · intro h1; cases h1; exact ⟨hk, ht⟩
      · intro h1; cases h1; exact ⟨hk, ht⟩
    | remove_keyword kw =>
      simp only [handle_card_action, hc]
      split
      · intro h1; cases h1; exact ⟨List.Nodup.erase kw hk, ht⟩
      · intro h1; cases h1; exact ⟨hk, ht⟩
    | toggle_source src =>
      simp only [handle_card_action, hc]
      split
      · intro h1; cases h1; exact ⟨hk, ht⟩
      · intro h1; cases h1; exact ⟨hk, ht⟩
      · intro h1; cases h1; exact ⟨hk, ht⟩
    | save_sources =>
      simp only [handle_card_action, hc]
      split
      · intro h1; cases h1; exact ⟨hk, ht⟩
      · intro h1; cases h1; exact ⟨hk, ht⟩
      · intro h1; cases h1; exact ⟨hk, ht⟩
    | add_preset_time tm =>
      simp only [handle_card_action, hc]
      split
      · rename_i hg
        intro h1; cases h1
        exact ⟨hk, nodup_append_singleton ht hg.2⟩
      · split
        · intro h1; cases h1; exact ⟨hk, ht⟩
        · intro h1; cases h1; exact ⟨hk, ht⟩
    | add_custom_time_prompt =>
      simp only [handle_card_action, hc]
      intro h1; cases h1; exact ⟨hk, ht⟩
    | add_time_confirm inp =>
      simp only [handle_card_action, hc]
      split
      · split
        · rename_i hg
          intro h1; cases h1
          exact ⟨hk, nodup_append_singleton ht hg⟩
        · intro h1; cases h1; exact ⟨hk, ht⟩
      · intro h1; cases h1; exact ⟨hk, ht⟩
      · intro h1; cases h1; exact ⟨hk, ht⟩
    | remove_time tm =>
      simp only [handle_card_action, hc]
      split
      · intro h1; cases h1; exact ⟨hk, List.Nodup.erase tm ht⟩
      · intro h1; cases h1; exact ⟨hk, ht⟩
    | toggle_enabled =>
      simp only [handle_card_action, hc]
      intro h1; cases h1; exact ⟨hk, ht⟩
    | view_config =>
      simp only [handle_card_action, hc]
      rw [handle_command_status_cfg]
      intro h1; cases h1; exact ⟨hk, ht⟩
    | pause_card =>
      simp only [handle_card_action, hc]
      intro h1
      obtain ⟨hk', ht'⟩ := handle_command_pause_preserves uid c c₁ h1
      exact ⟨by rw [hk']; exact hk, by rw [ht']; exact ht⟩
    | noop =>
      simp only [handle_card_action, hc]
      intro h1; cases h1; exact ⟨hk, ht⟩
    | other a =>
      simp only [handle_card_action, hc]
      intro h1; cases h1; exact ⟨hk, ht⟩
  · intro hm h2
    cases m with
    | waiting_keyword =>
      simp only [handle_event_text, hm, hc] at h2
      split at h2
      · split at h2
        · rename_i hg
          cases h2
          exact ⟨nodup_append_singleton hk hg.1, ht⟩
        · split at h2
          · cases h2; exact ⟨hk, ht⟩
          · cases h2; exact ⟨hk, ht⟩
      · cases h2; exact ⟨hk, ht⟩
    | waiting_time =>
      simp only [handle_event_text, hm, hc] at h2
      split at h2
      · split at h2
        · rename_i hg
          cases h2
          exact ⟨hk, nodup_append_singleton ht hg⟩
        · cases h2; exact ⟨hk, ht⟩
      · cases h2; exact ⟨hk, ht⟩
      · cases h2; exact ⟨hk, ht⟩

/-- The subscriber and state of the C7 witness. -/
def c7_user : UserConfig :=
  ⟨"u7", "", ["AI"], ["zhihu"], ["09:00"], "Asia/Shanghai", "current", 1⟩

/-- The C7 witness state: config stored, waiting for a keyword. -/
def c7_state : FullState := ⟨some c7_user, .absent, some .waiting_keyword, []⟩

/-- Witness for C7's amended claim: a `noop` card action and a captured
keyword `Web3` both leave the lists duplicate-free. -/
theorem conversation_paths_preserve_dedup_witness :
    (c7_user.keywords.Nodup ∧ c7_user.push_times.Nodup)
    ∧ (({ c7_user with keywords := ["AI", "Web3"] } : UserConfig).keywords.Nodup
       ∧ ({ c7_user with keywords := ["AI", "Web3"] } :
          UserConfig).push_times.Nodup) := by
  obtain ⟨hcard, htext⟩ :=
    conversation_paths_preserve_dedup 0 "u7" none c7_state c7_user c7_user
      { c7_user with keywords := ["AI", "Web3"] } .noop .waiting_keyword
      "Web3" rfl (by decide) (by decide)
  exact ⟨hcard rfl, htext rfl rfl⟩

/-- The silent branches of `handle_card_action`: the action variants, guard
failures, and temp-state shapes under which the dispatch completes without
sending any message — including `toggle_source` hitting the `KeyError` at
main.py line 412 when a previous `save_sources` already deleted the
`"sources"` key, which the endpoint catch-all swallows with zero responses. -/
def cardSilent (c : UserConfig) (temp : TempState) : CardAction → Prop
  | .remove_keyword kw => kw ∉ c.keywords
  | .toggle_source _ => temp = TempState.noSources
  | .save_sources => temp = TempState.absent ∨ temp = TempState.noSources
  | .add_preset_time tm => tm = "" ∧ tm ∉ c.push_times
  | .remove_time tm => tm ∉ c.push_times
  | .noop => True
  | .other _ => True
  | _ => False

/-- The one dispatch that raises into the endpoint catch-all: `toggle_source`
reading `user_temp_state[user_id]["sources"]` from a temp entry whose
`"sources"` key was deleted by `save_sources`. -/
def cardCrashes (temp : TempState) : CardAction → Prop
  | .toggle_source _ => temp = TempState.noSources
  | _ => False

theorem list_append_singleton_ne_nil {α : Type} (l : List α) (x : α) :
    l ++ [x] ≠ [] := by
  intro h
  exact absurd (List.append_eq_nil.mp h).2 (by simp)

/-- C3 (amended): a card action completes without any response exactly when
it is `noop`, an unrecognized action string, `remove_keyword` for an absent
keyword, `save_sources` with no open draft, `add_preset_time` with an empty
time value, `remove_time` for an absent time, or `toggle_source` right after
a `save_sources` (whose key deletion makes main.py line 412 raise `KeyError`
into the endpoint catch-all); that last branch is the only one that raises,
and every other card action, and every text message (commands, status
display, waiting-input captures), sends at least one — often two —
responses. -/
theorem card_action_response_characterization
    (nowRef : Int) (uid : String) (profileTz : Option String)
    (s : FullState) (c : UserConfig) (act : CardAction) (raw : String)
    (hc : s.config = some c) :
    (((handle_card_action nowRef uid profileTz s act).msgs = []) ↔
      cardSilent c s.tempState act)
    ∧ (((handle_card_action nowRef uid profileTz s act).crashed = true) ↔
      cardCrashes s.tempState act)
    ∧ (handle_event_text nowRef uid profileTz s raw).msgs ≠ [] := by
  refine ⟨?_, ?_, ?_⟩
  · cases act with
    | show_main_menu => simp [handle_card_action, hc, cardSilent]
    | show_keywords_menu => simp [handle_card_action, hc, cardSilent]
    | show_sources_menu => simp [handle_card_action, hc, cardSilent]
    | show_time_menu => simp [handle_card_action, hc, cardSilent]
    | show_status => simp [handle_card_action, hc, cardSilent]
    | add_keyword_prompt => simp [handle_card_action, hc, cardSilent]
    | add_keyword_confirm inp =>
      simp only [handle_card_action, hc, cardSilent]
      split
      · split
        · simp
        · split <;> simp
      · simp
    | remove_keyword kw =>
      simp only [handle_card_action, hc, cardSilent]
      split
      · rename_i hin; simp [hin]
      · rename_i hnin; simp [hnin]
    | toggle_source src =>
      rcases htmp : s.tempState with _ | _ | d <;>
        simp [handle_card_action, hc, cardSilent, htmp]
    | save_sources =>
      rcases htmp : s.tempState with _ | _ | d <;>
        simp [handle_card_action, hc, cardSilent, htmp]
    | add_preset_time tm =>
      simp only [handle_card_action, hc, cardSilent]
      split
      · rename_i hg; simp [hg.1, hg.2]
      · rename_i hg
        split
        · rename_i hin; simp [hin]
        · rename_i hnin
          simp only [List.nil_eq, true_iff]
          constructor
          · by_contra hne
            exact hg ⟨hne, hnin⟩
          · exact hnin
    | add_custom_time_prompt => simp [handle_card_action, hc, cardSilent]
    | add_time_confirm inp =>
      simp only [handle_card_action, hc, cardSilent]
      split
      · split <;> simp
      · simp
      · simp
    | remove_time tm =>
      simp only [handle_card_action, hc, cardSilent]
      split
      · rename_i hin; simp [hin]
      · rename_i hnin; simp [hnin]
    | toggle_enabled => simp [handle_card_action, hc, cardSilent]
    | view_config =>
      have hd : handle_command uid (some c) "/status" =
          ⟨some c, [], true, statusText c⟩ := rfl
      have hne : statusText c ≠ "" := handle_status_resp_ne (some c)
      simp [handle_card_action, hc, cardSilent, hd, hne]
    | pause_card =>
      have hne : (handle_command uid (some c) "/pause").resp ≠ "" :=
        handle_command_resp_ne uid (some c) "/pause"
      simp only [handle_card_action, hc, cardSilent, if_pos hne]
      simp [list_append_singleton_ne_nil]
    | noop => simp [handle_card_action, hc, cardSilent]
    | other a => simp [handle_card_action, hc, cardSilent]
  · cases act
    case toggle_source src =>
      rcases htmp : s.tempState with _ | _ | d <;>
        simp [handle_card_action, hc, cardCrashes, htmp]
    all_goals
      simp only [handle_card_action, hc, cardCrashes]
      repeat' split
      all_goals simp
  · cases hm : s.inputMode with
    | none =>
      simp only [handle_event_text, hm, hc]
      split
      · simp
      · have hne : (handle_command uid (some c) (pyStrip raw)).resp ≠ "" :=
          handle_command_resp_ne uid (some c) (pyStrip raw)
        rw [if_pos hne]
        exact list_append_singleton_ne_nil _ _
    | some mv =>
      cases mv with
      | waiting_keyword =>
        simp only [handle_event_text, hm, hc]
        split
        · split
          · simp
          · split <;> simp
        · simp
      | waiting_time =>
        simp only [handle_event_text, hm, hc]
        split
        · split <;> simp
        · simp
        · simp

/-- The subscriber/state of the C3 counterexample and witness. -/
def c3_user : UserConfig :=
  ⟨"u3", "", ["AI"], ["zhihu"], ["09:00"], "Asia/Shanghai", "current", 1⟩

/-- C3 counterexample state. -/
def c3_state : FullState := ⟨some c3_user, .absent, none, []⟩

/-- The C3 witness state: right after a `save_sources`, whose
`del user_temp_state[user_id]["sources"]` leaves the temp entry present but
keyless. -/
def c3_state_saved : FullState := ⟨some c3_user, .noSources, none, []⟩

/-- C3 (counterexample): the `remove_keyword` card action for a keyword not
in the stored list sends zero responses (a silent completion outside the
Push Orchestrator), and the `toggle_enabled` action sends two — so no
user-triggered action uniformly yields exactly one response. -/
theorem card_action_not_exactly_one_response :
    (handle_card_action 0 "u3" none c3_state
      (.remove_keyword "Web3")).msgs = []
    ∧ (handle_card_action 0 "u3" none c3_state
        .toggle_enabled).msgs.length = 2 :=
  ⟨rfl, rfl⟩

/-- Witness for C3's amended claim at the post-save `toggle_source` (the
`KeyError` branch: silent, and the one that raises) and a plain text
message. -/
theorem card_action_response_characterization_witness :
    (((handle_card_action 0 "u3" none c3_state_saved
        (.toggle_source "github")).msgs = []) ↔
      cardSilent c3_user c3_state_saved.tempState (.toggle_source "github"))
    ∧ (((handle_card_action 0 "u3" none c3_state_saved
        (.toggle_source "github")).crashed = true) ↔
      cardCrashes c3_state_saved.tempState (.toggle_source "github"))
    ∧ (handle_event_text 0 "u3" none c3_state_saved "hello").msgs ≠ [] :=
  card_action_response_characterization 0 "u3" none c3_state_saved c3_user
    (.toggle_source "github") "hello" rfl
